import Mathlib

/-!
# Verification of the lgdmap repository

A shallow embedding of the lgdmap map-based content browser:

* the database row shapes and the entity data-access functions of
  `src/lib/db/client.ts`, modelled as pure functions over an explicit
  `DbState` (fallible functions return `Except DbError`);
* the HTTP route handlers of `src/routes/+page.svelte` (the pin routes),
  `src/routes/api/tags/+server.ts`, `src/routes/api/tags/[id]/+server.ts`
  and `src/routes/api/boundary/+server.ts`, modelled as functions from a
  request body and a `DbState` to a status code, a response body and the
  resulting `DbState`;
* the client state layer of `src/lib/stores/mapStore.ts`, modelled as pure
  transition functions on a `ClientState`, parameterised by the outcome of
  the remote `fetch` call.

Machine timestamps (`NOW()`, ISO date strings) are modelled as `Nat` ticks;
geographic coordinates (SQL `FLOAT`) as `Rat`; JSON wire values as typed
structures with `Option` fields for fields that may be absent from a body.
JavaScript truthiness tests on strings (`data.x || d`) are modelled by
`jsOrStr`, and on numbers (`data.minZoom || 5`) by `jsOrInt`.
-/

/-- A content block of a pin (`PinContent` in `src/lib/types/index.ts`):
a kind (text/image/video/pdf), a value, and an optional caption title. -/
structure PinContent where
  type : String
  value : String
  title : Option String
deriving DecidableEq, Repr

/-- A row of the `pins` table (`DatabasePin` in `src/lib/types/index.ts`). -/
structure DbPin where
  id : String
  title : String
  position_lat : Rat
  position_lng : Rat
  main_tag : String
  content : List PinContent
  created_at : Nat
  updated_at : Nat
deriving DecidableEq, Repr

/-- A row of the `tags` table (`TagDefinition` in `src/lib/types/index.ts`). -/
structure TagRow where
  id : String
  name : String
  color : String
deriving DecidableEq, Repr

/-- A row of the `region_boundaries` table (`DatabaseRegionBoundary`),
without the SERIAL surrogate id. -/
structure BoundaryRow where
  name : String
  coordinates : List (Rat × Rat)
  min_zoom : Int
  max_zoom : Int
deriving DecidableEq, Repr

/-- The relational store: the tables created by `initDatabase` in
`src/lib/db/client.ts` that the verified claims touch.  Rows are kept in
insertion order, which is the order an unordered `SELECT` returns them in
the model. `pinSupportingTags` holds `(pin_id, tag_name)` pairs. -/
structure DbState where
  pins : List DbPin
  pinSupportingTags : List (String × String)
  tags : List TagRow
  boundaries : List BoundaryRow
deriving DecidableEq, Repr

/-- The empty database. -/
def emptyDb : DbState := ⟨[], [], [], []⟩

/-- Errors raised by the data-access layer: `invalid` models the explicit
`throw new Error(msg)` validation guards, `duplicateKey` models a
PostgreSQL unique-constraint violation (SQLSTATE 23505, whose message
contains the words "duplicate key"), and `updatesRequired` the guard of
`updatePin` against an empty update set. -/
inductive DbError where
  | invalid (msg : String)
  | duplicateKey (constraint : String)
  | updatesRequired
deriving DecidableEq, Repr

/-- The `error.message` string surfaced to route handlers. -/
def DbError.message : DbError → String
  | .invalid m => m
  | .duplicateKey c => "duplicate key value violates unique constraint " ++ c
  | .updatesRequired => "Updates are required"

/-- The route handlers match the storage error message against `23505` /
`duplicate key`; in the model exactly the `duplicateKey` errors carry
those markers. -/
def DbError.isDuplicateKey : DbError → Bool
  | .duplicateKey _ => true
  | _ => false

/-- JavaScript `x || d` on an optional string: absent or empty (falsy)
falls back to the default. -/
def jsOrStr (o : Option String) (d : String) : String :=
  match o with
  | some s => if s = "" then d else s
  | none => d

/-- JavaScript `x || d` on an optional integer: absent or `0` (falsy)
falls back to the default. -/
def jsOrInt (o : Option Int) (d : Int) : Int :=
  match o with
  | some z => if z = 0 then d else z
  | none => d

namespace Db

/-- Model of `getPinById` (`src/lib/db/client.ts`): `SELECT * FROM pins WHERE id = $1`,
then the first result or null.  Callers guard against an empty id. -/
def getPinById (id : String) (s : DbState) : Option DbPin :=
  (s.pins.filter (fun r => r.id == id)).head?

/-- The argument record of `createPin` (`src/lib/db/client.ts`). -/
structure NewPin where
  id : String
  title : String
  position_lat : Rat
  position_lng : Rat
  main_tag : String
  content : List PinContent
deriving DecidableEq, Repr

/-- Model of `createPin` (`src/lib/db/client.ts`): guards `!pin || !pin.id`, then
`INSERT INTO pins ... VALUES (..., NOW(), NOW()) RETURNING *`.  Both
timestamps are the same `now`.  Inserting an id already present violates
the `pins` primary key. -/
def createPin (p : NewPin) (now : Nat) (s : DbState) :
    Except DbError (List DbPin × DbState) :=
  if p.id = "" then .error (.invalid "Valid pin data is required")
  else if s.pins.any (fun r => r.id == p.id) then .error (.duplicateKey "pins_pkey")
  else
    let row : DbPin :=
      ⟨p.id, p.title, p.position_lat, p.position_lng, p.main_tag, p.content, now, now⟩
    .ok ([row], { s with pins := s.pins ++ [row] })

/-- The update set handed to `updatePin`: the route handler only ever puts
the keys `title`, `position_lat`, `position_lng`, `main_tag`, `content`
into it (already snake_case, so the camelCase-to-snake_case key rewrite in
`updatePin` is the identity on them). -/
structure PinUpdates where
  title : Option String
  position_lat : Option Rat
  position_lng : Option Rat
  main_tag : Option String
  content : Option (List PinContent)
deriving DecidableEq, Repr

/-- Model of `Object.keys(updates).length === 0`. -/
def PinUpdates.isEmpty (u : PinUpdates) : Bool :=
  u.title.isNone && u.position_lat.isNone && u.position_lng.isNone &&
    u.main_tag.isNone && u.content.isNone

/-- The effect of the generated `SET` clause on one row: each present
field is overwritten and `updated_at = NOW()`. -/
def applyPinUpdates (u : PinUpdates) (now : Nat) (r : DbPin) : DbPin :=
  { r with
    title := u.title.getD r.title
    position_lat := u.position_lat.getD r.position_lat
    position_lng := u.position_lng.getD r.position_lng
    main_tag := u.main_tag.getD r.main_tag
    content := u.content.getD r.content
    updated_at := now }

/-- Model of `updatePin` (`src/lib/db/client.ts`): guards `!id` and an empty update
set, then `UPDATE pins SET ... , updated_at = NOW() WHERE id = $1
RETURNING *`. -/
def updatePin (id : String) (u : PinUpdates) (now : Nat) (s : DbState) :
    Except DbError (List DbPin × DbState) :=
  if id = "" then .error (.invalid "Pin ID is required")
  else if u.isEmpty then .error .updatesRequired
  else
    let newPins := s.pins.map (fun r => if r.id == id then applyPinUpdates u now r else r)
    .ok (newPins.filter (fun r => r.id == id), { s with pins := newPins })

/-- Model of `addPinSupportingTag` (`src/lib/db/client.ts`): guards empty arguments,
then `INSERT INTO pin_supporting_tags ... ON CONFLICT (pin_id, tag_name)
DO NOTHING`.  The `pin_id` column references `pins(id)`, so inserting for
a pin that does not exist violates the foreign key. -/
def addPinSupportingTag (pinId tagName : String) (s : DbState) :
    Except DbError DbState :=
  if pinId = "" then .error (.invalid "Pin ID is required")
  else if tagName = "" then .error (.invalid "Tag name is required")
  else if !(s.pins.any (fun r => r.id == pinId)) then
    .error (.invalid "violates foreign key constraint")
  else if s.pinSupportingTags.any (fun e => e.1 == pinId && e.2 == tagName) then .ok s
  else .ok { s with pinSupportingTags := s.pinSupportingTags ++ [(pinId, tagName)] }

/-- Model of `createTag` (`src/lib/db/client.ts`): guards `!tag || !tag.id ||
!tag.name`, then `INSERT INTO tags (id, name, color) VALUES ($1,$2,$3)
ON CONFLICT (name) DO UPDATE SET color = $3 RETURNING *`.  A name
conflict therefore UPDATES the existing row's color (keeping its id) and
returns that row; only an id (primary key) conflict with a fresh name
raises a duplicate-key error. -/
def createTag (t : TagRow) (s : DbState) :
    Except DbError (List TagRow × DbState) :=
  if t.id = "" ∨ t.name = "" then .error (.invalid "Valid tag data is required")
  else
    match s.tags.find? (fun r => r.name == t.name) with
    | some existing =>
      let updated : TagRow := { existing with color := t.color }
      .ok ([updated],
        { s with tags := s.tags.map (fun r => if r.name == t.name then { r with color := t.color } else r) })
    | none =>
      if s.tags.any (fun r => r.id == t.id) then .error (.duplicateKey "tags_pkey")
      else .ok ([t], { s with tags := s.tags ++ [t] })

/-- Model of `deleteTag` (`src/lib/db/client.ts`): guards `!id`, then
`DELETE FROM tags WHERE id = $1`. -/
def deleteTag (id : String) (s : DbState) : Except DbError DbState :=
  if id = "" then .error (.invalid "Tag ID is required")
  else .ok { s with tags := s.tags.filter (fun r => !(r.id == id)) }

/-- Model of `setRegionBoundary` (`src/lib/db/client.ts`): guards `!boundary ||
!boundary.name || !boundary.coordinates` (an array is always truthy in
JavaScript, so only the name guard can fire on typed data), then
`DELETE FROM region_boundaries` followed by an `INSERT ... RETURNING *`
of the single new row. -/
def setRegionBoundary (b : BoundaryRow) (s : DbState) :
    Except DbError (List BoundaryRow × DbState) :=
  if b.name = "" then .error (.invalid "Valid boundary data is required")
  else .ok ([b], { s with boundaries := [b] })

end Db

/-- The wire-format pin (`Pin` in `src/lib/types/index.ts`): camelCase
field names and a combined `[lat, lng]` position pair. -/
structure WirePin where
  id : String
  title : String
  position : Rat × Rat
  mainTag : String
  supportingTags : List String
  content : List PinContent
  createdAt : Nat
  updatedAt : Nat
deriving DecidableEq, Repr

/-- The wire-format region boundary (`RegionBoundary` in
`src/lib/types/index.ts`). -/
structure WireBoundary where
  name : String
  coordinates : List (Rat × Rat)
  minZoom : Int
  maxZoom : Int
deriving DecidableEq, Repr

/-- A route handler's JSON response body. -/
inductive ApiResult where
  | pin (p : WirePin)
  | tag (t : TagRow)
  | boundary (b : WireBoundary)
  | success
  | err (msg : String)
deriving DecidableEq, Repr

/-- What a route handler produces: an HTTP status, a JSON body, and the
database state after the request. -/
structure RouteOutcome where
  status : Nat
  body : ApiResult
  db : DbState
deriving DecidableEq, Repr

namespace Api

/-- The JSON body of `POST /api/pins`; absent fields are `none`. -/
structure PinPostBody where
  id : Option String
  title : Option String
  position : Option (Rat × Rat)
  mainTag : Option String
  supportingTags : Option (List String)
  content : Option (List PinContent)
deriving DecidableEq, Repr

/-- The JSON body of `PUT /api/pins/[id]`. -/
structure PinPutBody where
  title : Option String
  position : Option (Rat × Rat)
  mainTag : Option String
  content : Option (List PinContent)
  supportingTags : Option (List String)
deriving DecidableEq, Repr

/-- The JSON body of `POST /api/tags`. -/
structure TagPostBody where
  id : Option String
  name : Option String
  color : Option String
deriving DecidableEq, Repr

/-- The JSON body of `PUT /api/boundary`. -/
structure BoundaryPutBody where
  name : Option String
  coordinates : Option (List (Rat × Rat))
  minZoom : Option Int
  maxZoom : Option Int
deriving DecidableEq, Repr

/-- The `for (const tag of ...) await db.addPinSupportingTag(...)` loop of
the pin routes.  A thrown error aborts the loop but keeps the inserts
already committed; the pair's second component is the caught message. -/
def addSupportingTags (pinId : String) (tgs : List String) (s : DbState) :
    DbState × Option String :=
  match tgs with
  | [] => (s, none)
  | t :: rest =>
    match Db.addPinSupportingTag pinId t s with
    | .error e => (s, some e.message)
    | .ok s1 => addSupportingTags pinId rest s1

/-- Model of `POST /api/pins` (`src/routes/+page.svelte`): no field validation.
Missing/empty title becomes `'Untitled'`, a missing position becomes
`[0, 0]`, a missing/empty main tag becomes `''`, missing content `[]`;
a missing id is replaced by a server-generated one (`gid`).  Any storage
error maps to 500. -/
def postPinsRoute (body : PinPostBody) (gid : String) (now : Nat) (s : DbState) :
    RouteOutcome :=
  let position := body.position.getD (0, 0)
  let p : Db.NewPin :=
    ⟨jsOrStr body.id gid, jsOrStr body.title "Untitled", position.1, position.2,
      jsOrStr body.mainTag "", body.content.getD []⟩
  match Db.createPin p now s with
  | .error e => ⟨500, .err e.message, s⟩
  | .ok ([], s1) => ⟨500, .err "Failed to create pin", s1⟩
  | .ok (createdPin :: _, s1) =>
    let res :=
      match body.supportingTags with
      | none => (s1, none)
      | some tgs => addSupportingTags createdPin.id tgs s1
    match res.2 with
    | some e => ⟨500, .err e, res.1⟩
    | none =>
      ⟨201,
        .pin ⟨createdPin.id, createdPin.title,
          (createdPin.position_lat, createdPin.position_lng), createdPin.main_tag,
          body.supportingTags.getD [], createdPin.content,
          createdPin.created_at, createdPin.updated_at⟩,
        res.1⟩

/-- Model of `GET /api/pins/[id]` (`src/routes/+page.svelte`): 400 on an empty id,
404 when no row matches, otherwise the row plus its supporting tags
(`SELECT tag_name FROM pin_supporting_tags WHERE pin_id = $1`) in wire
format. -/
def getPinByIdRoute (id : String) (s : DbState) : RouteOutcome :=
  if id = "" then ⟨400, .err "Pin ID is required", s⟩
  else
    match Db.getPinById id s with
    | none => ⟨404, .err "Pin not found", s⟩
    | some pin =>
      let supporting := (s.pinSupportingTags.filter (fun e => e.1 == id)).map Prod.snd
      ⟨200,
        .pin ⟨pin.id, pin.title, (pin.position_lat, pin.position_lng), pin.main_tag,
          supporting, pin.content, pin.created_at, pin.updated_at⟩,
        s⟩

/-- Model of `PUT /api/pins/[id]` (`src/routes/+page.svelte`): 400 on an empty id,
404 when the pin does not exist, then an update set built only from the
present `title`, `position`, `mainTag`, `content` fields is handed to
`Db.updatePin` (an all-absent body therefore makes it throw, caught as
500 with the state untouched); when `supportingTags` is present, the
associations are deleted and re-inserted; the refreshed row and
supporting tags are returned in wire format. -/
def putPinRoute (id : String) (body : PinPutBody) (now : Nat) (s : DbState) :
    RouteOutcome :=
  if id = "" then ⟨400, .err "Pin ID is required", s⟩
  else
    match Db.getPinById id s with
    | none => ⟨404, .err "Pin not found", s⟩
    | some _ =>
      let updates : Db.PinUpdates :=
        ⟨body.title, body.position.map Prod.fst, body.position.map Prod.snd,
          body.mainTag, body.content⟩
      match Db.updatePin id updates now s with
      | .error e => ⟨500, .err e.message, s⟩
      | .ok ([], s1) => ⟨500, .err "Failed to update pin", s1⟩
      | .ok (updatedPin :: _, s1) =>
        let res :=
          match body.supportingTags with
          | none => (s1, none)
          | some tgs =>
            addSupportingTags id tgs
              { s1 with pinSupportingTags := s1.pinSupportingTags.filter (fun e => !(e.1 == id)) }
        match res.2 with
        | some e => ⟨500, .err e, res.1⟩
        | none =>
          let s3 := res.1
          let supporting := (s3.pinSupportingTags.filter (fun e => e.1 == id)).map Prod.snd
          ⟨200,
            .pin ⟨updatedPin.id, updatedPin.title,
              (updatedPin.position_lat, updatedPin.position_lng), updatedPin.main_tag,
              supporting, updatedPin.content, updatedPin.created_at, updatedPin.updated_at⟩,
            s3⟩

/-- Model of `POST /api/tags` (`src/routes/api/tags/+server.ts`): defaults the id to
a generated one and the color to `'#cccccc'`, 400 when name or color is
missing/empty, then `Db.createTag`; a storage error whose message carries
the 23505 / "duplicate key" marker maps to 409, anything else to 500. -/
def postTagsRoute (body : TagPostBody) (gid : String) (s : DbState) : RouteOutcome :=
  let t : TagRow := ⟨jsOrStr body.id gid, jsOrStr body.name "", jsOrStr body.color "#cccccc"⟩
  if t.name = "" ∨ t.color = "" then
    ⟨400, .err "Name and color are required fields", s⟩
  else
    match Db.createTag t s with
    | .error e =>
      if e.isDuplicateKey then ⟨409, .err "A tag with this name already exists", s⟩
      else ⟨500, .err e.message, s⟩
    | .ok ([], s1) => ⟨500, .err "Failed to create tag", s1⟩
    | .ok (created :: _, s1) => ⟨201, .tag created, s1⟩

/-- Model of `DELETE /api/tags/[id]` (`src/routes/api/tags/[id]/+server.ts`): 400 on
an empty id, 404 when the tag does not exist; then the tag is refused
with 400 if any pin uses its name as main tag (`SELECT id FROM pins WHERE
main_tag = $1 LIMIT 1`) or as a supporting tag (`SELECT pin_id FROM
pin_supporting_tags WHERE tag_name = $1 LIMIT 1`); otherwise the row is
deleted and `{ success: true }` returned. -/
def deleteTagRoute (id : String) (s : DbState) : RouteOutcome :=
  if id = "" then ⟨400, .err "Tag ID is required", s⟩
  else
    match s.tags.find? (fun r => r.id == id) with
    | none => ⟨404, .err "Tag not found", s⟩
    | some existingTag =>
      match s.pins.find? (fun p => p.main_tag == existingTag.name) with
      | some _ => ⟨400, .err "Cannot delete tag that is used as a main tag by pins", s⟩
      | none =>
        match s.pinSupportingTags.find? (fun e => e.2 == existingTag.name) with
        | some _ =>
          ⟨400, .err "Cannot delete tag that is used as a supporting tag by pins", s⟩
        | none =>
          match Db.deleteTag id s with
          | .error e => ⟨500, .err e.message, s⟩
          | .ok s1 => ⟨200, .success, s1⟩

/-- Model of `PUT /api/boundary` (`src/routes/api/boundary/+server.ts`): 400 when
the name is missing/empty or the coordinates are missing (the
all-pairs-of-length-2 shape check holds by typing); `minZoom`/`maxZoom`
default to 5/18 under JavaScript falsiness; then `Db.setRegionBoundary`
and the stored row in wire format. -/
def putBoundaryRoute (body : BoundaryPutBody) (s : DbState) : RouteOutcome :=
  match body.name, body.coordinates with
  | some n, some coords =>
    if n = "" then ⟨400, .err "Name and coordinates are required fields", s⟩
    else
      let b : BoundaryRow := ⟨n, coords, jsOrInt body.minZoom 5, jsOrInt body.maxZoom 18⟩
      match Db.setRegionBoundary b s with
      | .error e => ⟨500, .err e.message, s⟩
      | .ok ([], s1) => ⟨500, .err "Failed to update boundary", s1⟩
      | .ok (row :: _, s1) =>
        ⟨200, .boundary ⟨row.name, row.coordinates, row.min_zoom, row.max_zoom⟩, s1⟩
  | _, _ => ⟨400, .err "Name and coordinates are required fields", s⟩

end Api

/-- The map display settings (`MapSettings` in `src/lib/types/index.ts`). -/
structure MapSettings where
  defaultCenter : Rat × Rat
  defaultZoom : Int
  allowedContentTypes : List String
  contentDisplayOrder : List String
  enabledFilters : List String
  enabledSorting : List String
deriving DecidableEq, Repr

/-- The outcome of an awaited `fetch` (plus `response.json()`): either a
resolved response with its status code and parsed payload, or a
transport/parse failure whose message `toErrorMessage` surfaces. -/
inductive RemoteResult (α : Type) where
  | response (status : Nat) (payload : α)
  | netError (msg : String)
deriving DecidableEq, Repr

/-- Model of `response.ok`: status in the 2xx range. -/
def respOk (st : Nat) : Bool :=
  decide (200 ≤ st) && decide (st < 300)

/-- Whether an outcome is a failing one in the sense of the spec: a
non-success response or a transport error. -/
def RemoteResult.failing {α : Type} : RemoteResult α → Bool
  | .response st _ => !(respOk st)
  | .netError _ => true

/-- The client state layer of `src/lib/stores/mapStore.ts`: the local
mirror of each collection, the session-only selection, and the per-
collection loading and error flags. -/
structure ClientState where
  pinsM : List WirePin
  tagsM : List TagRow
  boundaryM : Option WireBoundary
  settingsM : MapSettings
  selectedPinId : Option String
  isLoadingPins : Bool
  isLoadingTags : Bool
  isLoadingBoundary : Bool
  isLoadingSettings : Bool
  pinsError : Option String
  tagsError : Option String
  boundaryError : Option String
  settingsError : Option String
deriving DecidableEq, Repr

/-- The client state at startup: empty mirrors, the hard-coded default
settings of `mapStore.ts`, no selection, no flags. -/
def emptyClient : ClientState :=
  ⟨[], [], none,
    ⟨(52.0977, 19.0258), 6, ["text", "image", "video", "pdf"],
      ["text", "image", "video", "pdf"],
      ["title", "mainTag", "supportingTags", "createdAt"],
      ["title", "mainTag", "createdAt", "updatedAt"]⟩,
    none, false, false, false, false, none, none, none, none⟩

namespace Store

/-- Model of `getFilteredPins` of `src/lib/stores/mapStore.ts`, also the body of the
`filteredPins` derived store: with no active filter tags the full pin
collection, otherwise the pins whose main tag is in the filter set or one
of whose supporting tags is.  It is a pure function of the two inputs. -/
def getFilteredPins (allPins : List WirePin) (selectedTags : List String) :
    List WirePin :=
  if selectedTags.length = 0 then allPins
  else
    allPins.filter (fun pin =>
      selectedTags.contains pin.mainTag ||
        pin.supportingTags.any (fun tg => selectedTags.contains tg))

/-- Model of `loadPins` (`src/lib/stores/mapStore.ts`): sets the loading flag,
clears the error, fetches `/api/pins`; a non-ok response throws (caught:
error message recorded, mirror untouched), a good response replaces the
mirror; the `finally` block always clears the loading flag. -/
def loadPins (o : RemoteResult (List WirePin)) (c : ClientState) : ClientState :=
  let c1 := { c with isLoadingPins := true, pinsError := none }
  let c2 :=
    match o with
    | .response st v =>
      if respOk st then { c1 with pinsM := v }
      else { c1 with pinsError := some ("Failed to load pins: " ++ toString st) }
    | .netError m => { c1 with pinsError := some m }
  { c2 with isLoadingPins := false }

/-- Model of `loadTags` (`src/lib/stores/mapStore.ts`), same shape as `loadPins`. -/
def loadTags (o : RemoteResult (List TagRow)) (c : ClientState) : ClientState :=
  let c1 := { c with isLoadingTags := true, tagsError := none }
  let c2 :=
    match o with
    | .response st v =>
      if respOk st then { c1 with tagsM := v }
      else { c1 with tagsError := some ("Failed to load tags: " ++ toString st) }
    | .netError m => { c1 with tagsError := some m }
  { c2 with isLoadingTags := false }

/-- Model of `loadRegionBoundary` (`src/lib/stores/mapStore.ts`): a 404 response is
checked before `response.ok` and means "no boundary defined" — the mirror
is SET TO the absent value and no error is recorded; other non-ok
responses throw (error recorded, mirror untouched); an ok response
replaces the mirror; the loading flag is always cleared. -/
def loadRegionBoundary (o : RemoteResult WireBoundary) (c : ClientState) :
    ClientState :=
  let c1 := { c with isLoadingBoundary := true, boundaryError := none }
  let c2 :=
    match o with
    | .response st v =>
      if st = 404 then { c1 with boundaryM := none }
      else if respOk st then { c1 with boundaryM := some v }
      else { c1 with boundaryError := some ("Failed to load region boundary: " ++ toString st) }
    | .netError m => { c1 with boundaryError := some m }
  { c2 with isLoadingBoundary := false }

/-- Model of `loadMapSettings` (`src/lib/stores/mapStore.ts`): a 404 response means
"no settings defined, use defaults" — the mirror is left as it is and no
error is recorded; other non-ok responses record an error; an ok response
replaces the mirror; the loading flag is always cleared. -/
def loadMapSettings (o : RemoteResult MapSettings) (c : ClientState) : ClientState :=
  let c1 := { c with isLoadingSettings := true, settingsError := none }
  let c2 :=
    match o with
    | .response st v =>
      if st = 404 then c1
      else if respOk st then { c1 with settingsM := v }
      else { c1 with settingsError := some ("Failed to load map settings: " ++ toString st) }
    | .netError m => { c1 with settingsError := some m }
  { c2 with isLoadingSettings := false }

/-- Model of `loadAllData` (`src/lib/stores/mapStore.ts`): `Promise.all` of the four
loads.  Each load only reads and writes its own collection's mirror and
flags, so every interleaving produces the same final state; the model
composes them sequentially.  Each load catches every failure, so the
composite always resolves. -/
def loadAllData (o1 : RemoteResult (List WirePin)) (o2 : RemoteResult (List TagRow))
    (o3 : RemoteResult WireBoundary) (o4 : RemoteResult MapSettings)
    (c : ClientState) : ClientState :=
  loadMapSettings o4 (loadRegionBoundary o3 (loadTags o2 (loadPins o1 c)))

/-- Model of `addPin` (`src/lib/stores/mapStore.ts`): POSTs the pin (the request
body does not influence the resulting client state); on an ok response
whose body has an id, the server-returned pin is appended to the mirror;
a response body without an id, a non-ok response or a transport error
records an error and leaves the mirror; the loading flag is always
cleared. -/
def addPin (o : RemoteResult WirePin) (c : ClientState) : ClientState :=
  let c1 := { c with isLoadingPins := true, pinsError := none }
  let c2 :=
    match o with
    | .response st v =>
      if respOk st then
        if v.id = "" then { c1 with pinsError := some "Invalid response when creating pin" }
        else { c1 with pinsM := c1.pinsM ++ [v] }
      else { c1 with pinsError := some ("Failed to add pin: " ++ toString st) }
    | .netError m => { c1 with pinsError := some m }
  { c2 with isLoadingPins := false }

/-- Model of `updatePin` (`src/lib/stores/mapStore.ts`): an empty id is a guarded
no-op (returns before touching any flag); otherwise on success the
server-returned pin replaces the mirror entry with that id. -/
def updatePin (id : String) (o : RemoteResult WirePin) (c : ClientState) :
    ClientState :=
  if id = "" then c
  else
    let c1 := { c with isLoadingPins := true, pinsError := none }
    let c2 :=
      match o with
      | .response st v =>
        if respOk st then
          if v.id = "" then { c1 with pinsError := some "Invalid response when updating pin" }
          else { c1 with pinsM := c1.pinsM.map (fun (p : WirePin) => if p.id == id then v else p) }
        else { c1 with pinsError := some ("Failed to update pin: " ++ toString st) }
      | .netError m => { c1 with pinsError := some m }
    { c2 with isLoadingPins := false }

/-- Model of `deletePin` (`src/lib/stores/mapStore.ts`): an empty id is a guarded
no-op; on success the pin is removed from the mirror and, if it was the
selected pin, the selection is cleared. -/
def deletePin (id : String) (o : RemoteResult Unit) (c : ClientState) : ClientState :=
  if id = "" then c
  else
    let c1 := { c with isLoadingPins := true, pinsError := none }
    let c2 :=
      match o with
      | .response st _ =>
        if respOk st then
          let c3 := { c1 with pinsM := c1.pinsM.filter (fun p => !(p.id == id)) }
          if c3.selectedPinId = some id then { c3 with selectedPinId := none } else c3
        else { c1 with pinsError := some ("Failed to delete pin: " ++ toString st) }
      | .netError m => { c1 with pinsError := some m }
    { c2 with isLoadingPins := false }

/-- Model of `addTag` (`src/lib/stores/mapStore.ts`): an empty name is a guarded
no-op; on an ok response whose body has an id, the server-returned tag is
appended to the mirror. -/
def addTag (name : String) (o : RemoteResult TagRow) (c : ClientState) : ClientState :=
  if name = "" then c
  else
    let c1 := { c with isLoadingTags := true, tagsError := none }
    let c2 :=
      match o with
      | .response st v =>
        if respOk st then
          if v.id = "" then { c1 with tagsError := some "Invalid response when creating tag" }
          else { c1 with tagsM := c1.tagsM ++ [v] }
        else { c1 with tagsError := some ("Failed to add tag: " ++ toString st) }
      | .netError m => { c1 with tagsError := some m }
    { c2 with isLoadingTags := false }

/-- Model of `updateTag` (`src/lib/stores/mapStore.ts`): an empty id is a guarded
no-op; on success the server-returned tag replaces the mirror entry with
that id. -/
def updateTag (id : String) (o : RemoteResult TagRow) (c : ClientState) : ClientState :=
  if id = "" then c
  else
    let c1 := { c with isLoadingTags := true, tagsError := none }
    let c2 :=
      match o with
      | .response st v =>
        if respOk st then
          if v.id = "" then { c1 with tagsError := some "Invalid response when updating tag" }
          else { c1 with tagsM := c1.tagsM.map (fun (t : TagRow) => if t.id == id then v else t) }
        else { c1 with tagsError := some ("Failed to update tag: " ++ toString st) }
      | .netError m => { c1 with tagsError := some m }
    { c2 with isLoadingTags := false }

/-- Model of `deleteTag` (`src/lib/stores/mapStore.ts`): an empty id is a guarded
no-op; on success the tag is removed from the mirror. -/
def deleteTag (id : String) (o : RemoteResult Unit) (c : ClientState) : ClientState :=
  if id = "" then c
  else
    let c1 := { c with isLoadingTags := true, tagsError := none }
    let c2 :=
      match o with
      | .response st _ =>
        if respOk st then { c1 with tagsM := c1.tagsM.filter (fun t => !(t.id == id)) }
        else { c1 with tagsError := some ("Failed to delete tag: " ++ toString st) }
      | .netError m => { c1 with tagsError := some m }
    { c2 with isLoadingTags := false }

/-- Model of `setRegionBoundary` (`src/lib/stores/mapStore.ts`): the `!boundary`
guard never fires on a typed argument (objects are truthy); on success
the server-returned boundary replaces the mirror. -/
def setRegionBoundary (o : RemoteResult WireBoundary) (c : ClientState) : ClientState :=
  let c1 := { c with isLoadingBoundary := true, boundaryError := none }
  let c2 :=
    match o with
    | .response st v =>
      if respOk st then { c1 with boundaryM := some v }
      else { c1 with boundaryError := some ("Failed to set region boundary: " ++ toString st) }
    | .netError m => { c1 with boundaryError := some m }
  { c2 with isLoadingBoundary := false }

/-- Model of `deleteRegionBoundary` (`src/lib/stores/mapStore.ts`): on success the
mirror becomes the absent value. -/
def deleteRegionBoundary (o : RemoteResult Unit) (c : ClientState) : ClientState :=
  let c1 := { c with isLoadingBoundary := true, boundaryError := none }
  let c2 :=
    match o with
    | .response st _ =>
      if respOk st then { c1 with boundaryM := none }
      else { c1 with boundaryError := some ("Failed to delete region boundary: " ++ toString st) }
    | .netError m => { c1 with boundaryError := some m }
  { c2 with isLoadingBoundary := false }

/-- Model of `updateMapSettings` (`src/lib/stores/mapStore.ts`): the request body is
the merge of the current settings with the updates (which does not affect
the resulting client state in the model); on success the server-returned
settings replace the mirror. -/
def updateMapSettings (o : RemoteResult MapSettings) (c : ClientState) : ClientState :=
  let c1 := { c with isLoadingSettings := true, settingsError := none }
  let c2 :=
    match o with
    | .response st v =>
      if respOk st then { c1 with settingsM := v }
      else { c1 with settingsError := some ("Failed to update map settings: " ++ toString st) }
    | .netError m => { c1 with settingsError := some m }
  { c2 with isLoadingSettings := false }

end Store

/-- The four entity collections the client state layer mirrors. -/
inductive Collection where
  | pins
  | tags
  | boundary
  | settings
deriving DecidableEq, Repr

/-- One invocation of a client state-layer operation, carrying the request
data that influences the resulting state and the outcome of its remote
call. -/
inductive ClientOp where
  | loadPins (o : RemoteResult (List WirePin))
  | loadTags (o : RemoteResult (List TagRow))
  | loadRegionBoundary (o : RemoteResult WireBoundary)
  | loadMapSettings (o : RemoteResult MapSettings)
  | addPin (o : RemoteResult WirePin)
  | updatePin (id : String) (o : RemoteResult WirePin)
  | deletePin (id : String) (o : RemoteResult Unit)
  | addTag (name : String) (o : RemoteResult TagRow)
  | updateTag (id : String) (o : RemoteResult TagRow)
  | deleteTag (id : String) (o : RemoteResult Unit)
  | setRegionBoundary (o : RemoteResult WireBoundary)
  | deleteRegionBoundary (o : RemoteResult Unit)
  | updateMapSettings (o : RemoteResult MapSettings)

/-- Run a client state-layer operation. -/
def runOp : ClientOp → ClientState → ClientState
  | .loadPins o => Store.loadPins o
  | .loadTags o => Store.loadTags o
  | .loadRegionBoundary o => Store.loadRegionBoundary o
  | .loadMapSettings o => Store.loadMapSettings o
  | .addPin o => Store.addPin o
  | .updatePin id o => Store.updatePin id o
  | .deletePin id o => Store.deletePin id o
  | .addTag name o => Store.addTag name o
  | .updateTag id o => Store.updateTag id o
  | .deleteTag id o => Store.deleteTag id o
  | .setRegionBoundary o => Store.setRegionBoundary o
  | .deleteRegionBoundary o => Store.deleteRegionBoundary o
  | .updateMapSettings o => Store.updateMapSettings o

/-- The collection an operation belongs to. -/
def opCollection : ClientOp → Collection
  | .loadPins _ | .addPin _ | .updatePin _ _ | .deletePin _ _ => .pins
  | .loadTags _ | .addTag _ _ | .updateTag _ _ | .deleteTag _ _ => .tags
  | .loadRegionBoundary _ | .setRegionBoundary _ | .deleteRegionBoundary _ => .boundary
  | .loadMapSettings _ | .updateMapSettings _ => .settings

/-- Whether the operation's remote outcome is a failing one. -/
def opFailing : ClientOp → Bool
  | .loadPins o => o.failing
  | .loadTags o => o.failing
  | .loadRegionBoundary o => o.failing
  | .loadMapSettings o => o.failing
  | .addPin o => o.failing
  | .updatePin _ o => o.failing
  | .deletePin _ o => o.failing
  | .addTag _ o => o.failing
  | .updateTag _ o => o.failing
  | .deleteTag _ o => o.failing
  | .setRegionBoundary o => o.failing
  | .deleteRegionBoundary o => o.failing
  | .updateMapSettings o => o.failing

/-- The early-return guards at the top of the mutation functions
(`if (!browser || !id) return` / `if (!browser || !name) return`): the
operation is a no-op unless its id or name argument is non-empty. -/
def opGuardOk : ClientOp → Prop
  | .updatePin id _ => id ≠ ""
  | .deletePin id _ => id ≠ ""
  | .addTag name _ => name ≠ ""
  | .updateTag id _ => id ≠ ""
  | .deleteTag id _ => id ≠ ""
  | _ => True

/-- The two operations that special-case a 404 response as a valid
"absent" answer rather than a failure: the boundary load and the
settings load. -/
def opAbsent404 : ClientOp → Bool
  | .loadRegionBoundary (.response st _) => st == 404
  | .loadMapSettings (.response st _) => st == 404
  | _ => false

/-- The local mirror of a collection, compared between two states. -/
def mirrorsEq : Collection → ClientState → ClientState → Prop
  | .pins, a, b => a.pinsM = b.pinsM
  | .tags, a, b => a.tagsM = b.tagsM
  | .boundary, a, b => a.boundaryM = b.boundaryM
  | .settings, a, b => a.settingsM = b.settingsM

/-- A collection's error flag. -/
def errorOf : Collection → ClientState → Option String
  | .pins, c => c.pinsError
  | .tags, c => c.tagsError
  | .boundary, c => c.boundaryError
  | .settings, c => c.settingsError

/-- A collection's loading flag. -/
def loadingOf : Collection → ClientState → Bool
  | .pins, c => c.isLoadingPins
  | .tags, c => c.isLoadingTags
  | .boundary, c => c.isLoadingBoundary
  | .settings, c => c.isLoadingSettings

/-! ## Helper lemmas -/

/-- Helper: `jsOrStr` never yields the empty string when its default is not
empty. -/
theorem jsOrStr_ne_empty (o : Option String) (d : String) (hd : d ≠ "") :
    jsOrStr o d ≠ "" := by
  cases o with
  | none => exact hd
  | some s =>
    by_cases h : s = "" <;> simp [jsOrStr, h, hd]

/-- An UPDATE ... WHERE id = $1 touches exactly the rows the WHERE clause
selects: filtering the mapped list is mapping the filtered list, because
`applyPinUpdates` preserves the id. -/
theorem filter_map_applyPinUpdates (l : List DbPin) (id : String)
    (u : Db.PinUpdates) (now : Nat) :
    ((l.map (fun r => if r.id == id then Db.applyPinUpdates u now r else r)).filter
        (fun r => r.id == id)) =
      (l.filter (fun r => r.id == id)).map (Db.applyPinUpdates u now) := by
  induction l with
  | nil => rfl
  | cons a l ih =>
    by_cases h : a.id = id
    · simpa [h, Db.applyPinUpdates] using ih
    · simpa [h] using ih

/-- Appending a fresh row: filtering by an id no existing row has selects
exactly the new row. -/
theorem filter_append_fresh (l : List DbPin) (id : String) (row : DbPin)
    (h : ∀ r ∈ l, r.id ≠ id) (hrow : row.id = id) :
    (l ++ [row]).filter (fun r => r.id == id) = [row] := by
  induction l with
  | nil => simp [hrow]
  | cons a l ih =>
    have ha : ¬(a.id == id) = true := by
      simpa using h a (by simp)
    simp only [List.cons_append, List.filter_cons]
    rw [if_neg ha]
    exact ih (fun r hr => h r (by simp [hr]))

/-! ## The claims -/

/-- C1: for every pin collection `P` and tag-filter set `F`, the derived
filtered-pins projection with an empty filter set equals the full pin
collection, and with a non-empty `F` it contains exactly those pins whose
main tag is in `F` or whose supporting-tag set intersects `F`.  The
projection (`getFilteredPins` / the `filteredPins` derived store) is a
pure function of the two inputs, so computing it mutates neither. -/
theorem C1_filtered_pins_projection (P : List WirePin) (F : List String) :
    Store.getFilteredPins P [] = P ∧
    (F ≠ [] →
      ∀ p : WirePin, p ∈ Store.getFilteredPins P F ↔
        p ∈ P ∧ (p.mainTag ∈ F ∨ ∃ tg ∈ p.supportingTags, tg ∈ F)) := by
  constructor
  · simp [Store.getFilteredPins]
  · intro hF p
    have hlen : ¬(F.length = 0) := by simpa using hF
    simp [Store.getFilteredPins, hlen, List.mem_filter, List.any_eq_true]

/-- Witness for C1 at a concrete collection and filter set. -/
theorem C1_filtered_pins_projection_witness :
    (["health"] : List String) ≠ [] ∧
    (⟨"a", "t", (0, 0), "health", [], [], 0, 0⟩ : WirePin) ∈
      Store.getFilteredPins
        [⟨"a", "t", (0, 0), "health", [], [], 0, 0⟩,
          ⟨"b", "u", (0, 0), "culture", [], [], 0, 0⟩]
        ["health"] := by
  refine ⟨by decide, ?_⟩
  have h := (C1_filtered_pins_projection
    [⟨"a", "t", (0, 0), "health", [], [], 0, 0⟩,
      ⟨"b", "u", (0, 0), "culture", [], [], 0, 0⟩]
    ["health"]).2 (by decide) ⟨"a", "t", (0, 0), "health", [], [], 0, 0⟩
  exact h.mpr ⟨by simp, Or.inl (by simp)⟩

/-- C2: for a stored tag `t` (found by id), `DELETE /api/tags/[id]` is
rejected with the client-error status 400 and removes nothing whenever
some pin references `t.name` as its main tag or a supporting-tag
association references it; when nothing references the name, the tag row
is deleted (status 200). -/
theorem C2_tag_delete_guard (s : DbState) (id : String) (t : TagRow)
    (hid : id ≠ "") (hfind : s.tags.find? (fun r => r.id == id) = some t) :
    ((∃ p ∈ s.pins, p.main_tag = t.name) ∨ (∃ e ∈ s.pinSupportingTags, e.2 = t.name) →
      (Api.deleteTagRoute id s).status = 400 ∧ (Api.deleteTagRoute id s).db = s) ∧
    (¬((∃ p ∈ s.pins, p.main_tag = t.name) ∨ (∃ e ∈ s.pinSupportingTags, e.2 = t.name)) →
      (Api.deleteTagRoute id s).status = 200 ∧
      (Api.deleteTagRoute id s).db.tags = s.tags.filter (fun r => !(r.id == id)) ∧
      (Api.deleteTagRoute id s).db.pins = s.pins ∧
      (Api.deleteTagRoute id s).db.pinSupportingTags = s.pinSupportingTags) := by
  rcases hp : s.pins.find? (fun p => p.main_tag == t.name) with _ | p
  · rcases he : s.pinSupportingTags.find? (fun e => e.2 == t.name) with _ | e
    · have hpn : ∀ x ∈ s.pins, ¬(x.main_tag = t.name) := by
        intro x hx
        have := List.find?_eq_none.mp hp x hx
        simpa using this
      have hen : ∀ x ∈ s.pinSupportingTags, ¬(x.2 = t.name) := by
        intro x hx
        have := List.find?_eq_none.mp he x hx
        simpa using this
      constructor
      · rintro (⟨p, hmem, hpt⟩ | ⟨e, hmem, het⟩)
        · exact absurd hpt (hpn p hmem)
        · exact absurd het (hen e hmem)
      · intro _
        simp [Api.deleteTagRoute, hid, hfind, hp, he, Db.deleteTag]
    · constructor
      · intro _
        constructor <;> simp [Api.deleteTagRoute, hid, hfind, hp, he]
      · intro hnot
        exfalso
        apply hnot
        right
        refine ⟨e, List.mem_of_find?_eq_some he, ?_⟩
        have := List.find?_some he
        simpa using this
  · constructor
    · intro _
      constructor <;> simp [Api.deleteTagRoute, hid, hfind, hp]
    · intro hnot
      exfalso
      apply hnot
      left
      refine ⟨p, List.mem_of_find?_eq_some hp, ?_⟩
      have := List.find?_some hp
      simpa using this

/-- Witness for C2: a tag in use as a main tag is refused, and an unused
tag is deleted. -/
theorem C2_tag_delete_guard_witness :
    (("1" : String) ≠ "" ∧
      (Api.deleteTagRoute "1"
        ⟨[⟨"p1", "t", 0, 0, "culture", [], 0, 0⟩], [], [⟨"1", "culture", "#FF5733"⟩], []⟩).status = 400) ∧
    (Api.deleteTagRoute "1"
      ⟨[], [], [⟨"1", "culture", "#FF5733"⟩], []⟩).status = 200 := by
  constructor
  · refine ⟨by decide, ?_⟩
    have h := (C2_tag_delete_guard
      ⟨[⟨"p1", "t", 0, 0, "culture", [], 0, 0⟩], [], [⟨"1", "culture", "#FF5733"⟩], []⟩
      "1" ⟨"1", "culture", "#FF5733"⟩ (by decide) (by decide)).1
      (Or.inl ⟨⟨"p1", "t", 0, 0, "culture", [], 0, 0⟩, by simp, rfl⟩)
    exact h.1
  · have h := (C2_tag_delete_guard
      ⟨[], [], [⟨"1", "culture", "#FF5733"⟩], []⟩
      "1" ⟨"1", "culture", "#FF5733"⟩ (by decide) (by decide)).2
      (by rintro (⟨p, hp, _⟩ | ⟨e, he, _⟩) <;> simp_all)
    exact h.1

/-- C5: a successful `PUT /api/boundary` leaves exactly one region
boundary row, equal to the value just written (name, coordinates, and the
zoom range after the route's falsy-defaulting); setting a boundary twice
in sequence leaves exactly one row, equal to the second value. -/
theorem C5_boundary_single_row (s : DbState) (n1 n2 : String)
    (c1 c2 : List (Rat × Rat)) (z1 w1 z2 w2 : Option Int)
    (h1 : n1 ≠ "") (h2 : n2 ≠ "") :
    (Api.putBoundaryRoute ⟨some n1, some c1, z1, w1⟩ s).status = 200 ∧
    (Api.putBoundaryRoute ⟨some n1, some c1, z1, w1⟩ s).db.boundaries =
      [⟨n1, c1, jsOrInt z1 5, jsOrInt w1 18⟩] ∧
    (Api.putBoundaryRoute ⟨some n2, some c2, z2, w2⟩
        (Api.putBoundaryRoute ⟨some n1, some c1, z1, w1⟩ s).db).status = 200 ∧
    (Api.putBoundaryRoute ⟨some n2, some c2, z2, w2⟩
        (Api.putBoundaryRoute ⟨some n1, some c1, z1, w1⟩ s).db).db.boundaries =
      [⟨n2, c2, jsOrInt z2 5, jsOrInt w2 18⟩] := by
  refine ⟨?_, ?_, ?_, ?_⟩ <;>
    simp [Api.putBoundaryRoute, Db.setRegionBoundary, h1, h2]

/-- Witness for C5 at a concrete state and two concrete boundaries. -/
theorem C5_boundary_single_row_witness :
    ("A" : String) ≠ "" ∧ ("B" : String) ≠ "" ∧
    (Api.putBoundaryRoute ⟨some "B", some [(1, 2)], some 6, some 12⟩
        (Api.putBoundaryRoute ⟨some "A", some [(0, 0)], none, none⟩
          emptyDb).db).db.boundaries = [⟨"B", [(1, 2)], 6, 12⟩] := by
  refine ⟨by decide, by decide, ?_⟩
  have h := (C5_boundary_single_row emptyDb "A" "B" [(0, 0)] [(1, 2)]
    none none (some 6) (some 12) (by decide) (by decide)).2.2.2
  simpa [jsOrInt] using h

/-- C10: a `PUT /api/pins/[id]` on an existing pin whose body contains
none of `title`, `position`, `mainTag`, `content` (for example an empty
object or one supplying only `supportingTags`) is answered 500 — the
data-access `updatePin` rejects the empty update set — and the database
state, pin row and supporting-tag associations included, is unchanged. -/
theorem C10_empty_update_rejected (s : DbState) (id : String) (now : Nat)
    (tgs : Option (List String)) (old : DbPin)
    (hid : id ≠ "") (hold : Db.getPinById id s = some old) :
    (Api.putPinRoute id ⟨none, none, none, none, tgs⟩ now s).status = 500 ∧
    (Api.putPinRoute id ⟨none, none, none, none, tgs⟩ now s).body =
      .err "Updates are required" ∧
    (Api.putPinRoute id ⟨none, none, none, none, tgs⟩ now s).db = s := by
  refine ⟨?_, ?_, ?_⟩ <;>
    simp [Api.putPinRoute, hid, hold, Db.updatePin, Db.PinUpdates.isEmpty,
      DbError.message]

/-- Witness for C10 at a concrete pin and a body supplying only
supporting tags. -/
theorem C10_empty_update_rejected_witness :
    ("p1" : String) ≠ "" ∧
    Db.getPinById "p1" ⟨[⟨"p1", "t", 1, 2, "health", [], 3, 4⟩], [], [], []⟩ =
      some ⟨"p1", "t", 1, 2, "health", [], 3, 4⟩ ∧
    (Api.putPinRoute "p1" ⟨none, none, none, none, some ["x"]⟩ 9
      ⟨[⟨"p1", "t", 1, 2, "health", [], 3, 4⟩], [], [], []⟩).status = 500 := by
  refine ⟨by decide, by simp [Db.getPinById], ?_⟩
  exact (C10_empty_update_rejected
    ⟨[⟨"p1", "t", 1, 2, "health", [], 3, 4⟩], [], [], []⟩ "p1" 9 (some ["x"])
    ⟨"p1", "t", 1, 2, "health", [], 3, 4⟩ (by decide) (by simp [Db.getPinById])).1

/-- C7: a successful title-only `PUT /api/pins/[id]` returns 200, leaves
the pin's position, main tag, supporting-tag associations and content
unchanged, sets the title to the given value, and refreshes `updatedAt`
to the current clock, which (for a monotone clock) is at least the
previous `updatedAt` and at least `createdAt`. -/
theorem C7_title_update_frame (s : DbState) (id t : String) (now : Nat) (old : DbPin)
    (hid : id ≠ "") (hold : Db.getPinById id s = some old)
    (hu : old.updated_at ≤ now) (hc : old.created_at ≤ now) :
    (Api.putPinRoute id ⟨some t, none, none, none, none⟩ now s).status = 200 ∧
    (Api.putPinRoute id ⟨some t, none, none, none, none⟩ now s).db.pinSupportingTags =
      s.pinSupportingTags ∧
    ∃ p : WirePin,
      (Api.putPinRoute id ⟨some t, none, none, none, none⟩ now s).body = .pin p ∧
      p.title = t ∧
      p.position = (old.position_lat, old.position_lng) ∧
      p.mainTag = old.main_tag ∧
      p.content = old.content ∧
      p.supportingTags = (s.pinSupportingTags.filter (fun e => e.1 == id)).map Prod.snd ∧
      p.createdAt = old.created_at ∧
      old.updated_at ≤ p.updatedAt ∧
      p.createdAt ≤ p.updatedAt := by
  obtain ⟨rest, hq⟩ : ∃ rest, s.pins.filter (fun r => r.id == id) = old :: rest := by
    rcases hfq : s.pins.filter (fun r => r.id == id) with _ | ⟨a, rest⟩
    · rw [Db.getPinById, hfq] at hold
      cases hold
    · rw [Db.getPinById, hfq] at hold
      simp only [List.head?_cons, Option.some.injEq] at hold
      exact ⟨rest, by rw [hfq, hold]⟩
  have hrows :
      ((s.pins.map (fun r =>
          if r.id == id then
            Db.applyPinUpdates ⟨some t, none, none, none, none⟩ now r
          else r)).filter (fun r => r.id == id)) =
        Db.applyPinUpdates ⟨some t, none, none, none, none⟩ now old ::
          rest.map (Db.applyPinUpdates ⟨some t, none, none, none, none⟩ now) := by
    rw [filter_map_applyPinUpdates, hq, List.map_cons]
  simp only [Db.applyPinUpdates, Option.getD_some, Option.getD_none, beq_iff_eq] at hrows
  refine ⟨?_, ?_, ⟨old.id, t, (old.position_lat, old.position_lng), old.main_tag,
    (s.pinSupportingTags.filter (fun e => e.1 == id)).map Prod.snd,
    old.content, old.created_at, now⟩, ?_, rfl, rfl, rfl, rfl, rfl, rfl, hu, hc⟩ <;>
    simp [Api.putPinRoute, hid, hold, Db.updatePin, Db.PinUpdates.isEmpty,
      hrows, Db.applyPinUpdates]

/-- Witness for C7 at a concrete pin, title and clock. -/
theorem C7_title_update_frame_witness :
    ("p1" : String) ≠ "" ∧
    (Api.putPinRoute "p1" ⟨some "new", none, none, none, none⟩ 10
      ⟨[⟨"p1", "old", 1, 2, "health", [], 3, 4⟩], [("p1", "community")], [], []⟩).status = 200 ∧
    (Api.putPinRoute "p1" ⟨some "new", none, none, none, none⟩ 10
      ⟨[⟨"p1", "old", 1, 2, "health", [], 3, 4⟩], [("p1", "community")], [], []⟩).db.pinSupportingTags =
      [("p1", "community")] := by
  have h := C7_title_update_frame
    ⟨[⟨"p1", "old", 1, 2, "health", [], 3, 4⟩], [("p1", "community")], [], []⟩
    "p1" "new" 10 ⟨"p1", "old", 1, 2, "health", [], 3, 4⟩
    (by decide) (by simp [Db.getPinById]) (by decide) (by decide)
  exact ⟨by decide, h.1, h.2.1⟩

/-- Counterexample to C3 as stated: posting a tag whose name equals a
stored tag's name does NOT answer 409 and DOES modify the existing row —
`createTag` upserts (`ON CONFLICT (name) DO UPDATE SET color`), so the
route returns 201 with the existing row's id and the new color. -/
theorem C3_duplicate_tag_counterexample :
    (Api.postTagsRoute ⟨some "9", some "culture", some "#00FF00"⟩ "gen"
      ⟨[], [], [⟨"1", "culture", "#FF5733"⟩], []⟩).status = 201 ∧
    ¬((Api.postTagsRoute ⟨some "9", some "culture", some "#00FF00"⟩ "gen"
        ⟨[], [], [⟨"1", "culture", "#FF5733"⟩], []⟩).status = 409) ∧
    (Api.postTagsRoute ⟨some "9", some "culture", some "#00FF00"⟩ "gen"
      ⟨[], [], [⟨"1", "culture", "#FF5733"⟩], []⟩).db.tags =
      [⟨"1", "culture", "#00FF00"⟩] ∧
    ¬((Api.postTagsRoute ⟨some "9", some "culture", some "#00FF00"⟩ "gen"
        ⟨[], [], [⟨"1", "culture", "#FF5733"⟩], []⟩).db.tags =
      [⟨"1", "culture", "#FF5733"⟩]) := by
  refine ⟨?_, ?_, ?_, ?_⟩ <;>
    simp [Api.postTagsRoute, Db.createTag, jsOrStr]

/-- C3 as amended: a `POST /api/tags` whose name equals a stored tag's
name succeeds with 201 — the storage layer upserts, so no duplicate-key
signal is raised for a name conflict; the existing row keeps its id and
name and its color is overwritten with the posted color, and that row is
returned.  (The handler's 409 branch fires only when the storage layer
does raise a duplicate-key error, which a name conflict never does.) -/
theorem C3_duplicate_tag_upsert (s : DbState) (bid : Option String)
    (n c gid : String) (ex : TagRow)
    (hn : n ≠ "") (hc : c ≠ "") (hgid : gid ≠ "")
    (hex : s.tags.find? (fun r => r.name == n) = some ex) :
    (Api.postTagsRoute ⟨bid, some n, some c⟩ gid s).status = 201 ∧
    ¬((Api.postTagsRoute ⟨bid, some n, some c⟩ gid s).status = 409) ∧
    (Api.postTagsRoute ⟨bid, some n, some c⟩ gid s).body = .tag ⟨ex.id, ex.name, c⟩ ∧
    (Api.postTagsRoute ⟨bid, some n, some c⟩ gid s).db.tags =
      s.tags.map (fun r => if r.name == n then { r with color := c } else r) := by
  have hjs : jsOrStr (some n) "" = n := by simp [jsOrStr, hn]
  have hjc : jsOrStr (some c) "#cccccc" = c := by simp [jsOrStr, hc]
  have hjid : jsOrStr bid gid ≠ "" := jsOrStr_ne_empty bid gid hgid
  refine ⟨?_, ?_, ?_, ?_⟩ <;>
    simp [Api.postTagsRoute, Db.createTag, hjs, hjc, hjid, hn, hc, hex]

/-- Witness for the amended C3 at a concrete store and request. -/
theorem C3_duplicate_tag_upsert_witness :
    ("culture" : String) ≠ "" ∧ ("#00FF00" : String) ≠ "" ∧
    (Api.postTagsRoute ⟨some "9", some "culture", some "#00FF00"⟩ "gen"
      ⟨[], [], [⟨"1", "culture", "#FF5733"⟩], []⟩).body =
      .tag ⟨"1", "culture", "#00FF00"⟩ := by
  refine ⟨by decide, by decide, ?_⟩
  exact (C3_duplicate_tag_upsert ⟨[], [], [⟨"1", "culture", "#FF5733"⟩], []⟩
    (some "9") "culture" "#00FF00" "gen" ⟨"1", "culture", "#FF5733"⟩
    (by decide) (by decide) (by decide) (by simp)).2.2.1

/-- Counterexample to C4 as stated: a `POST /api/pins` whose body is
missing title, position and main tag is NOT rejected with 400 — the route
substitutes defaults and creates the pin with 201. -/
theorem C4_pin_validation_counterexample :
    (Api.postPinsRoute ⟨none, none, none, none, none, none⟩ "srv1" 0 emptyDb).status = 201 ∧
    ¬((Api.postPinsRoute ⟨none, none, none, none, none, none⟩ "srv1" 0 emptyDb).status = 400) ∧
    ¬((Api.postPinsRoute ⟨none, none, none, none, none, none⟩ "srv1" 0
        emptyDb).db.pins = []) := by
  refine ⟨?_, ?_, ?_⟩ <;>
    simp [Api.postPinsRoute, Db.createPin, jsOrStr, emptyDb, Api.addSupportingTags]

/-- C4 as amended: some endpoints do validate before touching the
data-access layer — `POST /api/tags` without a name and `PUT
/api/boundary` without name/coordinates answer 400 with a message and
leave the store unchanged — but `POST /api/pins` performs no such
validation: a body missing title, position and main tag is accepted with
201, the absent fields replaced by the defaults `'Untitled'`, `[0, 0]`
and the empty string. -/
theorem C4_validation_amended (s : DbState) (gid : String) (now : Nat)
    (hg : gid ≠ "") (hfresh : ∀ r ∈ s.pins, r.id ≠ gid) :
    (Api.postTagsRoute ⟨none, none, none⟩ gid s).status = 400 ∧
    (Api.postTagsRoute ⟨none, none, none⟩ gid s).db = s ∧
    (Api.putBoundaryRoute ⟨none, none, none, none⟩ s).status = 400 ∧
    (Api.putBoundaryRoute ⟨none, none, none, none⟩ s).db = s ∧
    (Api.postPinsRoute ⟨none, none, none, none, none, none⟩ gid now s).status = 201 ∧
    (Api.postPinsRoute ⟨none, none, none, none, none, none⟩ gid now s).body =
      .pin ⟨gid, "Untitled", (0, 0), "", [], [], now, now⟩ ∧
    (Api.postPinsRoute ⟨none, none, none, none, none, none⟩ gid now s).db.pins =
      s.pins ++ [⟨gid, "Untitled", 0, 0, "", [], now, now⟩] := by
  have hany : (s.pins.any (fun r => r.id == gid)) = false := by
    simp only [List.any_eq_false, beq_iff_eq]
    exact fun r hr => hfresh r hr
  refine ⟨?_, ?_, ?_, ?_, ?_, ?_, ?_⟩ <;>
    simp [Api.postTagsRoute, Api.putBoundaryRoute, Api.postPinsRoute,
      Db.createPin, jsOrStr, hg, hany, Api.addSupportingTags]

/-- Witness for the amended C4 at a concrete generated id and clock. -/
theorem C4_validation_amended_witness :
    ("srv1" : String) ≠ "" ∧
    (Api.postTagsRoute ⟨none, none, none⟩ "srv1" emptyDb).status = 400 ∧
    (Api.postPinsRoute ⟨none, none, none, none, none, none⟩ "srv1" 0 emptyDb).status = 201 := by
  have h := C4_validation_amended emptyDb "srv1" 0 (by decide) (by simp [emptyDb])
  exact ⟨by decide, h.1, h.2.2.2.2.1⟩

/-- C6: creating a pin via `POST /api/pins` with position `[52.1, 19.0]`,
main tag `"health"`, empty supporting tags and one text content block
succeeds with 201 and a response whose `updatedAt` equals `createdAt`;
reading it back via `GET /api/pins/[id]` yields the same title, position,
main tag and content (and equal timestamps). -/
theorem C6_pin_round_trip (s : DbState) (ttl v gid : String) (now : Nat)
    (httl : ttl ≠ "") (hgid : gid ≠ "")
    (hfresh : ∀ r ∈ s.pins, r.id ≠ gid) :
    (Api.postPinsRoute
        ⟨none, some ttl, some (52.1, 19.0), some "health", some [], some [⟨"text", v, none⟩]⟩
        gid now s).status = 201 ∧
    (Api.postPinsRoute
        ⟨none, some ttl, some (52.1, 19.0), some "health", some [], some [⟨"text", v, none⟩]⟩
        gid now s).body =
      .pin ⟨gid, ttl, (52.1, 19.0), "health", [], [⟨"text", v, none⟩], now, now⟩ ∧
    (Api.getPinByIdRoute gid
        (Api.postPinsRoute
          ⟨none, some ttl, some (52.1, 19.0), some "health", some [], some [⟨"text", v, none⟩]⟩
          gid now s).db).status = 200 ∧
    ∃ p : WirePin,
      (Api.getPinByIdRoute gid
          (Api.postPinsRoute
            ⟨none, some ttl, some (52.1, 19.0), some "health", some [], some [⟨"text", v, none⟩]⟩
            gid now s).db).body = .pin p ∧
      p.title = ttl ∧
      p.position = (52.1, 19.0) ∧
      p.mainTag = "health" ∧
      p.content = [⟨"text", v, none⟩] ∧
      p.createdAt = now ∧
      p.updatedAt = p.createdAt := by
  have hany : (s.pins.any (fun r => r.id == gid)) = false := by
    simp only [List.any_eq_false, beq_iff_eq]
    exact hfresh
  have hfind :
      ((s.pins ++
          [(⟨gid, ttl, 52.1, 19.0, "health", [⟨"text", v, none⟩], now, now⟩ : DbPin)]).filter
        (fun r => r.id == gid)) =
        [⟨gid, ttl, 52.1, 19.0, "health", [⟨"text", v, none⟩], now, now⟩] :=
    filter_append_fresh s.pins gid _ hfresh rfl
  refine ⟨?_, ?_, ?_,
    ⟨⟨gid, ttl, (52.1, 19.0), "health",
      (s.pinSupportingTags.filter (fun e => e.1 == gid)).map Prod.snd,
      [⟨"text", v, none⟩], now, now⟩, ?_, rfl, rfl, rfl, rfl, rfl, rfl⟩⟩ <;>
    simp [Api.postPinsRoute, Api.getPinByIdRoute, Db.createPin, Db.getPinById,
      Api.addSupportingTags, jsOrStr, httl, hgid, hany, hfind]

/-- Witness for C6 at a concrete title, content value, generated id and
clock, starting from the empty database. -/
theorem C6_pin_round_trip_witness :
    ("Clinic" : String) ≠ "" ∧ ("pinX" : String) ≠ "" ∧
    (Api.postPinsRoute
        ⟨none, some "Clinic", some (52.1, 19.0), some "health", some [],
          some [⟨"text", "desc", none⟩]⟩ "pinX" 7 emptyDb).status = 201 ∧
    (Api.getPinByIdRoute "pinX"
        (Api.postPinsRoute
          ⟨none, some "Clinic", some (52.1, 19.0), some "health", some [],
            some [⟨"text", "desc", none⟩]⟩ "pinX" 7 emptyDb).db).status = 200 := by
  have h := C6_pin_round_trip emptyDb "Clinic" "desc" "pinX" 7
    (by decide) (by decide) (by simp [emptyDb])
  exact ⟨by decide, by decide, h.1, h.2.2.1⟩

/-- C9: `loadAllData` composed of the four loads completes on any mix of
outcomes; when the boundary load answers 500 while the other three answer
200, the pins, tags and settings mirrors are replaced by the fetched
values, the boundary mirror is untouched, only the boundary error flag is
set, and every loading flag is cleared. -/
theorem C9_load_all_partial_failure (c : ClientState) (v1 : List WirePin)
    (v2 : List TagRow) (bv : WireBoundary) (v4 : MapSettings) :
    (Store.loadAllData (.response 200 v1) (.response 200 v2) (.response 500 bv)
        (.response 200 v4) c).pinsM = v1 ∧
    (Store.loadAllData (.response 200 v1) (.response 200 v2) (.response 500 bv)
        (.response 200 v4) c).tagsM = v2 ∧
    (Store.loadAllData (.response 200 v1) (.response 200 v2) (.response 500 bv)
        (.response 200 v4) c).settingsM = v4 ∧
    (Store.loadAllData (.response 200 v1) (.response 200 v2) (.response 500 bv)
        (.response 200 v4) c).boundaryM = c.boundaryM ∧
    (Store.loadAllData (.response 200 v1) (.response 200 v2) (.response 500 bv)
        (.response 200 v4) c).pinsError = none ∧
    (Store.loadAllData (.response 200 v1) (.response 200 v2) (.response 500 bv)
        (.response 200 v4) c).tagsError = none ∧
    (Store.loadAllData (.response 200 v1) (.response 200 v2) (.response 500 bv)
        (.response 200 v4) c).settingsError = none ∧
    (Store.loadAllData (.response 200 v1) (.response 200 v2) (.response 500 bv)
        (.response 200 v4) c).boundaryError =
      some ("Failed to load region boundary: " ++ toString 500) ∧
    (Store.loadAllData (.response 200 v1) (.response 200 v2) (.response 500 bv)
        (.response 200 v4) c).isLoadingPins = false ∧
    (Store.loadAllData (.response 200 v1) (.response 200 v2) (.response 500 bv)
        (.response 200 v4) c).isLoadingTags = false ∧
    (Store.loadAllData (.response 200 v1) (.response 200 v2) (.response 500 bv)
        (.response 200 v4) c).isLoadingBoundary = false ∧
    (Store.loadAllData (.response 200 v1) (.response 200 v2) (.response 500 bv)
        (.response 200 v4) c).isLoadingSettings = false := by
  refine ⟨?_, ?_, ?_, ?_, ?_, ?_, ?_, ?_, ?_, ?_, ?_, ?_⟩ <;>
    simp [Store.loadAllData, Store.loadPins, Store.loadTags,
      Store.loadRegionBoundary, Store.loadMapSettings, respOk]

/-- Counterexample to C8 as stated: a 404 response is a non-success
response, yet `loadRegionBoundary` treats it as "no boundary defined" —
the boundary mirror IS changed (set to the absent value) and the boundary
error flag is NOT set. -/
theorem C8_failure_handling_counterexample :
    RemoteResult.failing
      (RemoteResult.response 404 (⟨"Poland", [], 5, 18⟩ : WireBoundary)) = true ∧
    (Store.loadRegionBoundary (.response 404 ⟨"Poland", [], 5, 18⟩)
      { emptyClient with boundaryM := some ⟨"Poland", [], 5, 18⟩ }).boundaryM = none ∧
    ¬((Store.loadRegionBoundary (.response 404 ⟨"Poland", [], 5, 18⟩)
        { emptyClient with boundaryM := some ⟨"Poland", [], 5, 18⟩ }).boundaryM =
      ({ emptyClient with boundaryM := some ⟨"Poland", [], 5, 18⟩ } : ClientState).boundaryM) ∧
    (Store.loadRegionBoundary (.response 404 ⟨"Poland", [], 5, 18⟩)
      { emptyClient with boundaryM := some ⟨"Poland", [], 5, 18⟩ }).boundaryError = none := by
  refine ⟨?_, ?_, ?_, ?_⟩ <;>
    simp [RemoteResult.failing, respOk, Store.loadRegionBoundary]

/-- C8 as amended: every client state-layer operation (the four loads and
the nine mutations), run past its argument guard, clears its collection's
loading flag on exit on every outcome; and on every failing remote
outcome — except the 404 answers that the boundary and settings loads
deliberately treat as a valid "absent" result — it leaves the local
mirror of its collection unchanged and sets the collection's error
message.  The operations are total functions of the outcome, so no
exception propagates to the caller. -/
theorem C8_failure_handling_amended (op : ClientOp) (c : ClientState)
    (hg : opGuardOk op) :
    (opFailing op = true → opAbsent404 op = false →
      mirrorsEq (opCollection op) (runOp op c) c ∧
      (errorOf (opCollection op) (runOp op c)).isSome = true) ∧
    loadingOf (opCollection op) (runOp op c) = false := by
  cases op with
  | loadPins o =>
    refine ⟨?_, rfl⟩
    intro hf h404
    cases o with
    | response st v =>
      simp only [opFailing, RemoteResult.failing, Bool.not_eq_true'] at hf
      constructor <;>
        simp [runOp, Store.loadPins, opCollection, mirrorsEq, errorOf, hf]
    | netError m => exact ⟨rfl, rfl⟩
  | loadTags o =>
    refine ⟨?_, rfl⟩
    intro hf h404
    cases o with
    | response st v =>
      simp only [opFailing, RemoteResult.failing, Bool.not_eq_true'] at hf
      constructor <;>
        simp [runOp, Store.loadTags, opCollection, mirrorsEq, errorOf, hf]
    | netError m => exact ⟨rfl, rfl⟩
  | loadRegionBoundary o =>
    refine ⟨?_, rfl⟩
    intro hf h404
    cases o with
    | response st v =>
      simp only [opFailing, RemoteResult.failing, Bool.not_eq_true'] at hf
      simp only [opAbsent404, beq_eq_false_iff_ne, ne_eq] at h404
      constructor <;>
        simp [runOp, Store.loadRegionBoundary, opCollection, mirrorsEq, errorOf, hf, h404]
    | netError m => exact ⟨rfl, rfl⟩
  | loadMapSettings o =>
    refine ⟨?_, rfl⟩
    intro hf h404
    cases o with
    | response st v =>
      simp only [opFailing, RemoteResult.failing, Bool.not_eq_true'] at hf
      simp only [opAbsent404, beq_eq_false_iff_ne, ne_eq] at h404
      constructor <;>
        simp [runOp, Store.loadMapSettings, opCollection, mirrorsEq, errorOf, hf, h404]
    | netError m => exact ⟨rfl, rfl⟩
  | addPin o =>
    refine ⟨?_, rfl⟩
    intro hf h404
    cases o with
    | response st v =>
      simp only [opFailing, RemoteResult.failing, Bool.not_eq_true'] at hf
      constructor <;>
        simp [runOp, Store.addPin, opCollection, mirrorsEq, errorOf, hf]
    | netError m => exact ⟨rfl, rfl⟩
  | updatePin id o =>
    replace hg : id ≠ "" := hg
    refine ⟨?_, ?_⟩
    · intro hf h404
      cases o with
      | response st v =>
        simp only [opFailing, RemoteResult.failing, Bool.not_eq_true'] at hf
        constructor <;>
          simp [runOp, Store.updatePin, opCollection, mirrorsEq, errorOf, hf, hg]
      | netError m =>
        constructor <;>
          simp [runOp, Store.updatePin, opCollection, mirrorsEq, errorOf, hg]
    · simp [runOp, Store.updatePin, opCollection, loadingOf, hg]
  | deletePin id o =>
    replace hg : id ≠ "" := hg
    refine ⟨?_, ?_⟩
    · intro hf h404
      cases o with
      | response st v =>
        simp only [opFailing, RemoteResult.failing, Bool.not_eq_true'] at hf
        constructor <;>
          simp [runOp, Store.deletePin, opCollection, mirrorsEq, errorOf, hf, hg]
      | netError m =>
        constructor <;>
          simp [runOp, Store.deletePin, opCollection, mirrorsEq, errorOf, hg]
    · simp [runOp, Store.deletePin, opCollection, loadingOf, hg]
  | addTag name o =>
    replace hg : name ≠ "" := hg
    refine ⟨?_, ?_⟩
    · intro hf h404
      cases o with
      | response st v =>
        simp only [opFailing, RemoteResult.failing, Bool.not_eq_true'] at hf
        constructor <;>
          simp [runOp, Store.addTag, opCollection, mirrorsEq, errorOf, hf, hg]
      | netError m =>
        constructor <;>
          simp [runOp, Store.addTag, opCollection, mirrorsEq, errorOf, hg]
    · simp [runOp, Store.addTag, opCollection, loadingOf, hg]
  | updateTag id o =>
    replace hg : id ≠ "" := hg
    refine ⟨?_, ?_⟩
    · intro hf h404
      cases o with
      | response st v =>
        simp only [opFailing, RemoteResult.failing, Bool.not_eq_true'] at hf
        constructor <;>
          simp [runOp, Store.updateTag, opCollection, mirrorsEq, errorOf, hf, hg]
      | netError m =>
        constructor <;>
          simp [runOp, Store.updateTag, opCollection, mirrorsEq, errorOf, hg]
    · simp [runOp, Store.updateTag, opCollection, loadingOf, hg]
  | deleteTag id o =>
    replace hg : id ≠ "" := hg
    refine ⟨?_, ?_⟩
    · intro hf h404
      cases o with
      | response st v =>
        simp only [opFailing, RemoteResult.failing, Bool.not_eq_true'] at hf
        constructor <;>
          simp [runOp, Store.deleteTag, opCollection, mirrorsEq, errorOf, hf, hg]
      | netError m =>
        constructor <;>
          simp [runOp, Store.deleteTag, opCollection, mirrorsEq, errorOf, hg]
    · simp [runOp, Store.deleteTag, opCollection, loadingOf, hg]
  | setRegionBoundary o =>
    refine ⟨?_, rfl⟩
    intro hf h404
    cases o with
    | response st v =>
      simp only [opFailing, RemoteResult.failing, Bool.not_eq_true'] at hf
      constructor <;>
        simp [runOp, Store.setRegionBoundary, opCollection, mirrorsEq, errorOf, hf]
    | netError m => exact ⟨rfl, rfl⟩
  | deleteRegionBoundary o =>
    refine ⟨?_, rfl⟩
    intro hf h404
    cases o with
    | response st v =>
      simp only [opFailing, RemoteResult.failing, Bool.not_eq_true'] at hf
      constructor <;>
        simp [runOp, Store.deleteRegionBoundary, opCollection, mirrorsEq, errorOf, hf]
    | netError m => exact ⟨rfl, rfl⟩
  | updateMapSettings o =>
    refine ⟨?_, rfl⟩
    intro hf h404
    cases o with
    | response st v =>
      simp only [opFailing, RemoteResult.failing, Bool.not_eq_true'] at hf
      constructor <;>
        simp [runOp, Store.updateMapSettings, opCollection, mirrorsEq, errorOf, hf]
    | netError m => exact ⟨rfl, rfl⟩

/-- Witness for the amended C8: a pins load answered 500 leaves the pins
mirror unchanged, sets the pins error and clears the loading flag. -/
theorem C8_failure_handling_amended_witness :
    mirrorsEq (opCollection (.loadPins (.response 500 [])))
      (runOp (.loadPins (.response 500 [])) emptyClient) emptyClient ∧
    (errorOf (opCollection (.loadPins (.response 500 [])))
      (runOp (.loadPins (.response 500 [])) emptyClient)).isSome = true ∧
    loadingOf (opCollection (.loadPins (.response 500 [])))
      (runOp (.loadPins (.response 500 [])) emptyClient) = false := by
  have h := C8_failure_handling_amended (.loadPins (.response 500 [])) emptyClient trivial
  exact ⟨(h.1 (by decide) rfl).1, (h.1 (by decide) rfl).2, h.2⟩
